import Mathlib

/-!
Shallow embedding of the SmartRefresh backend (hysteresis engine, config
validation/serialization, display manager) and proofs about its
specification claims.

Conventions of the embedding:
* `u32` values are `Nat` (all quantities relevant to the claims stay far
  below `2^32`; the one saturating float-to-`u32` cast is modelled
  explicitly, and Rust's panicking `u32::clamp` is modelled as `Option`).
* `f64` values are `ℚ` (the engine only adds, subtracts, divides,
  compares and floors its FPS inputs).
* `Instant` / `Duration` are `Nat` milliseconds.
* The one wall-clock read inside the engine (`Instant::now()` in
  `is_in_resume_cooldown`, reached from `process_with_time`) is made an
  explicit `wall_now` argument.
-/

namespace SmartRefresh

/-- Algorithm state for hysteresis control (`AlgorithmState` in core_logic.rs). -/
inductive AlgorithmState where
  | Stable
  | Dropping (since : Nat)
  | Increasing (since : Nat)
deriving DecidableEq

/-- Sensitivity presets (`Sensitivity` in core_logic.rs). -/
inductive Sensitivity where
  | Conservative
  | Balanced
  | Aggressive
deriving DecidableEq

/-- Device mode (`DeviceMode` in core_logic.rs). -/
inductive DeviceMode where
  | Oled
  | Lcd
  | Custom
deriving DecidableEq

/-- Rust `Sensitivity::drop_threshold`, in milliseconds. -/
def Sensitivity.dropThreshold : Sensitivity → Nat
  | .Conservative => 2000
  | .Balanced => 1000
  | .Aggressive => 500

/-- Rust `Sensitivity::increase_threshold`, in milliseconds. -/
def Sensitivity.increaseThreshold : Sensitivity → Nat
  | .Conservative => 5000
  | .Balanced => 3000
  | .Aggressive => 1500

/-- Rust `DEFAULT_FPS_TOLERANCE`. -/
def DEFAULT_FPS_TOLERANCE : ℚ := 3

/-- Rust `MIN_FPS_TOLERANCE`. -/
def MIN_FPS_TOLERANCE : ℚ := 2

/-- Rust `MAX_FPS_TOLERANCE`. -/
def MAX_FPS_TOLERANCE : ℚ := 5

/-- Rust `ADAPTIVE_WINDOW_SIZE`. -/
def ADAPTIVE_WINDOW_SIZE : Nat := 10

/-- Rust `HZ_STEP_SIZE`. -/
def HZ_STEP_SIZE : Nat := 5

/-- Rust `f64::clamp` on the rationals (no NaN in the model; Rust clamps with
`if self < min { min } else if self > max { max } else { self }`). -/
def f64Clamp (x lo hi : ℚ) : ℚ :=
  if x < lo then lo else if hi < x then hi else x

/-- Rust `u32::clamp`: Rust panics when `min > max`; the panic is `none`. -/
def rustClampU32 (x lo hi : Nat) : Option Nat :=
  if hi < lo then none else some (min (max x lo) hi)

/-- Rust `u32::abs_diff`. -/
def absDiff (a b : Nat) : Nat :=
  if a ≤ b then b - a else a - b

/-- Rust's saturating cast `(x : f64) as u32` applied after `f64::floor`:
negative values go to 0, values at `u32::MAX` or above saturate. -/
def floorAsU32 (x : ℚ) : Nat :=
  if x < 0 then 0 else min x.floor.toNat (2 ^ 32 - 1)

/-- Rust `FpsSlidingWindow`: a `VecDeque` of f64 samples with a capacity.
The head of the list is the front (oldest) element. -/
structure FpsSlidingWindow where
  samples : List ℚ
  capacity : Nat
deriving DecidableEq

/-- Rust `FpsSlidingWindow::new`. -/
def FpsSlidingWindow.new (capacity : Nat) : FpsSlidingWindow :=
  ⟨[], capacity⟩

/-- Rust `FpsSlidingWindow::push`: pop the front when at capacity, then push back. -/
def FpsSlidingWindow.push (w : FpsSlidingWindow) (fps : ℚ) : FpsSlidingWindow :=
  ⟨(if w.capacity ≤ w.samples.length then w.samples.drop 1 else w.samples) ++ [fps],
   w.capacity⟩

/-- Rust `FpsSlidingWindow::clear`. -/
def FpsSlidingWindow.clear (w : FpsSlidingWindow) : FpsSlidingWindow :=
  ⟨[], w.capacity⟩

/-- Rust `FpsSlidingWindow::is_full`. -/
def FpsSlidingWindow.full (w : FpsSlidingWindow) : Bool :=
  w.capacity ≤ w.samples.length

/-- Rust `FpsSlidingWindow::mean`. -/
def FpsSlidingWindow.mean (w : FpsSlidingWindow) : ℚ :=
  if w.samples.isEmpty then 0 else w.samples.sum / (w.samples.length : ℚ)

/-- The radicand computed inside `FpsSlidingWindow::std_dev` (the sample
variance); the source takes its square root, but every use of the square
root is a comparison against a nonnegative constant, which we express as
the equivalent comparison of the variance against the squared constant. -/
def FpsSlidingWindow.variance (w : FpsSlidingWindow) : ℚ :=
  if w.samples.length < 2 then 0
  else ((w.samples.map (fun x => (x - w.mean) ^ 2)).sum) / ((w.samples.length - 1 : Nat) : ℚ)

/-- The `HysteresisController` struct of core_logic.rs.  Durations and
instants are milliseconds. -/
structure HysteresisController where
  state : AlgorithmState
  drop_threshold : Nat
  increase_threshold : Nat
  min_change_interval : Nat
  last_change : Option Nat
  user_sensitivity : Sensitivity
  effective_sensitivity : Sensitivity
  device_mode : DeviceMode
  user_min_hz : Nat
  user_max_hz : Nat
  fps_window : FpsSlidingWindow
  adaptive_sensitivity_enabled : Bool
  external_display_detected : Bool
  fps_tolerance : ℚ
  resume_cooldown_until : Option Nat
  resume_cooldown_duration : Nat
  sync_frame_limiter : Bool
  last_set_hz : Option Nat
deriving DecidableEq

namespace HysteresisController

/-- Rust `MIN_CHANGE_INTERVAL_OLED_MS`. -/
def MIN_CHANGE_INTERVAL_OLED_MS : Nat := 500

/-- Rust `MIN_CHANGE_INTERVAL_LCD_MS`. -/
def MIN_CHANGE_INTERVAL_LCD_MS : Nat := 2000

/-- Rust `LCD_MIN_HZ`. -/
def LCD_MIN_HZ : Nat := 40

/-- Rust `LCD_MAX_HZ`. -/
def LCD_MAX_HZ : Nat := 60

/-- Rust `HysteresisController::new`. -/
def new (sensitivity : Sensitivity) : HysteresisController where
  state := .Stable
  drop_threshold := sensitivity.dropThreshold
  increase_threshold := sensitivity.increaseThreshold
  min_change_interval := MIN_CHANGE_INTERVAL_OLED_MS
  last_change := none
  user_sensitivity := sensitivity
  effective_sensitivity := sensitivity
  device_mode := .Oled
  user_min_hz := 40
  user_max_hz := 90
  fps_window := FpsSlidingWindow.new ADAPTIVE_WINDOW_SIZE
  adaptive_sensitivity_enabled := false
  external_display_detected := false
  fps_tolerance := DEFAULT_FPS_TOLERANCE
  resume_cooldown_until := none
  resume_cooldown_duration := 5000
  sync_frame_limiter := false
  last_set_hz := none

/-- Rust `HysteresisController::set_user_range`. -/
def set_user_range (c : HysteresisController) (min_hz max_hz : Nat) : HysteresisController :=
  { c with user_min_hz := min_hz, user_max_hz := max_hz }

/-- Rust `HysteresisController::update_effective_sensitivity`. -/
def update_effective_sensitivity (c : HysteresisController) : HysteresisController :=
  let es := if c.device_mode = .Lcd then Sensitivity.Conservative else c.user_sensitivity
  { c with effective_sensitivity := es,
           drop_threshold := es.dropThreshold,
           increase_threshold := es.increaseThreshold }

/-- Rust `HysteresisController::set_adaptive_sensitivity`. -/
def set_adaptive_sensitivity (c : HysteresisController) (enabled : Bool) : HysteresisController :=
  let c := { c with adaptive_sensitivity_enabled := enabled }
  if enabled = false then c.update_effective_sensitivity else c

/-- Rust `HysteresisController::set_external_display_detected`. -/
def set_external_display_detected (c : HysteresisController) (detected : Bool) : HysteresisController :=
  let c := { c with external_display_detected := detected }
  if detected then { c with state := .Stable } else c

/-- Rust `HysteresisController::reset_state` (reads the wall clock to arm the
resume cooldown; the clock read is the explicit `wall_now`). -/
def reset_state (c : HysteresisController) (wall_now : Nat) : HysteresisController :=
  { c with state := .Stable,
           last_change := none,
           fps_window := c.fps_window.clear,
           resume_cooldown_until := some (wall_now + c.resume_cooldown_duration) }

/-- Rust `HysteresisController::is_in_resume_cooldown`: compares the stored
deadline against `Instant::now()`, modelled as the explicit `wall_now`. -/
def is_in_resume_cooldown (c : HysteresisController) (wall_now : Nat) : Bool :=
  match c.resume_cooldown_until with
  | some until_t => wall_now < until_t
  | none => false

/-- Rust `HysteresisController::set_resume_cooldown` (seconds, stored as ms). -/
def set_resume_cooldown (c : HysteresisController) (secs : Nat) : HysteresisController :=
  { c with resume_cooldown_duration := secs * 1000 }

/-- Rust `HysteresisController::set_fps_tolerance`. -/
def set_fps_tolerance (c : HysteresisController) (tolerance : ℚ) : HysteresisController :=
  { c with fps_tolerance := f64Clamp tolerance MIN_FPS_TOLERANCE MAX_FPS_TOLERANCE }

/-- Rust `HysteresisController::set_sync_frame_limiter`. -/
def set_sync_frame_limiter (c : HysteresisController) (enabled : Bool) : HysteresisController :=
  { c with sync_frame_limiter := enabled }

/-- Rust `HysteresisController::set_last_hz`. -/
def set_last_hz (c : HysteresisController) (hz : Nat) : HysteresisController :=
  { c with last_set_hz := some hz }

/-- Rust `HysteresisController::can_change` (`Instant::duration_since` saturates
to zero for an earlier instant, which truncated `Nat` subtraction models). -/
def can_change (c : HysteresisController) (now : Nat) : Bool :=
  match c.last_change with
  | some last => c.min_change_interval ≤ now - last
  | none => true

/-- Rust `HysteresisController::set_sensitivity`. -/
def set_sensitivity (c : HysteresisController) (sensitivity : Sensitivity) : HysteresisController :=
  let c := update_effective_sensitivity { c with user_sensitivity := sensitivity }
  { c with state := .Stable }

/-- Rust `HysteresisController::apply_mode_constraints`. -/
def apply_mode_constraints (c : HysteresisController) (mode : DeviceMode) : HysteresisController :=
  let c := { c with device_mode := mode,
                    min_change_interval :=
                      match mode with
                      | .Lcd => MIN_CHANGE_INTERVAL_LCD_MS
                      | .Oled => MIN_CHANGE_INTERVAL_OLED_MS
                      | .Custom => MIN_CHANGE_INTERVAL_OLED_MS }
  let c := c.update_effective_sensitivity
  { c with state := .Stable }

/-- Rust `HysteresisController::get_effective_range`. -/
def get_effective_range (c : HysteresisController) : Nat × Nat :=
  match c.device_mode with
  | .Lcd => (max c.user_min_hz LCD_MIN_HZ, min c.user_max_hz LCD_MAX_HZ)
  | _ => (c.user_min_hz, c.user_max_hz)

/-- Rust `HysteresisController::quantize_hz`. -/
def quantize_hz (hz : Nat) : Nat :=
  ((hz + HZ_STEP_SIZE / 2) / HZ_STEP_SIZE) * HZ_STEP_SIZE

/-- Rust `HysteresisController::quantize_hz_down`. -/
def quantize_hz_down (hz : Nat) : Nat :=
  (hz / HZ_STEP_SIZE) * HZ_STEP_SIZE

/-- Rust `HysteresisController::clamp_hz`. -/
def clamp_hz (c : HysteresisController) (hz : Nat) : Option Nat :=
  let er := c.get_effective_range
  (rustClampU32 hz er.1 er.2).map quantize_hz

/-- Rust `HysteresisController::next_step_up`. -/
def next_step_up (c : HysteresisController) (current_hz : Nat) : Nat :=
  let effective_max := c.get_effective_range.2
  quantize_hz (min (current_hz + HZ_STEP_SIZE) effective_max)

/-- Rust `HysteresisController::target_hz_for_drop` (`none` is the clamp panic
when the effective range is empty). -/
def target_hz_for_drop (c : HysteresisController) (fps : ℚ) : Option Nat :=
  let er := c.get_effective_range
  rustClampU32 (quantize_hz_down (floorAsU32 fps)) er.1 er.2

/-- Rust `HysteresisController::apply_adaptive_sensitivity`; the source compares
`std_dev = sqrt(variance)` with 5.0 and 2.0, equivalent for the
nonnegative radicand to comparing the variance with 25 and 4. -/
def apply_adaptive_sensitivity (c : HysteresisController) : HysteresisController :=
  if c.adaptive_sensitivity_enabled = false ∨ c.device_mode = .Lcd then c
  else if c.fps_window.full = false then c
  else if 25 < c.fps_window.variance then
    if c.effective_sensitivity ≠ .Conservative then
      { c with effective_sensitivity := .Conservative,
               drop_threshold := Sensitivity.Conservative.dropThreshold,
               increase_threshold := Sensitivity.Conservative.increaseThreshold }
    else c
  else if c.fps_window.variance < 4 then
    if c.effective_sensitivity ≠ c.user_sensitivity then
      { c with effective_sensitivity := c.user_sensitivity,
               drop_threshold := c.user_sensitivity.dropThreshold,
               increase_threshold := c.user_sensitivity.increaseThreshold }
    else c
  else c

/-- Rust `HysteresisController::process_with_time`.  Result `none` is a panic
(only reachable through `u32::clamp` on an empty effective range);
otherwise the optional commanded Hz and the updated controller.
`wall_now` is the value of the `Instant::now()` read performed inside
`is_in_resume_cooldown`. -/
def process_with_time (c : HysteresisController) (current_fps : ℚ)
    (current_hz now wall_now : Nat) : Option (Option Nat × HysteresisController) :=
  let c := { c with fps_window := c.fps_window.push current_fps }
  let c := c.apply_adaptive_sensitivity
  if c.external_display_detected then some (none, { c with state := .Stable })
  else if c.is_in_resume_cooldown wall_now then some (none, { c with state := .Stable })
  else
    let er := c.get_effective_range
    if |current_fps - (current_hz : ℚ)| < c.fps_tolerance then
      some (none, { c with state := .Stable })
    else
      match c.state with
      | .Stable =>
          if current_fps < (current_hz : ℚ) - 1 ∧ er.1 < current_hz then
            some (none, { c with state := .Dropping now })
          else if (current_hz : ℚ) ≤ current_fps ∧ current_hz < er.2 then
            some (none, { c with state := .Increasing now })
          else some (none, c)
      | .Dropping since =>
          if ¬ (current_fps < (current_hz : ℚ) - 1) then
            some (none, { c with state := .Stable })
          else if c.drop_threshold ≤ now - since then
            if c.can_change now then
              match c.target_hz_for_drop current_fps with
              | none => none
              | some target_hz =>
                  if absDiff current_hz target_hz < HZ_STEP_SIZE then
                    some (none, { c with state := .Stable })
                  else
                    some (some target_hz,
                      { c with state := .Stable,
                               last_change := some now,
                               last_set_hz := some target_hz })
            else some (none, c)
          else some (none, c)
      | .Increasing since =>
          if current_fps < (current_hz : ℚ) - 1 then
            some (none, { c with state := .Dropping now })
          else if ¬ ((current_hz : ℚ) ≤ current_fps) then
            some (none, { c with state := .Stable })
          else if c.increase_threshold ≤ now - since then
            if c.can_change now then
              let new_hz := c.next_step_up current_hz
              if new_hz ≤ current_hz then
                some (none, { c with state := .Stable })
              else
                some (some new_hz,
                  { c with state := .Stable,
                           last_change := some now,
                           last_set_hz := some new_hz })
            else some (none, c)
          else some (none, c)

end HysteresisController

/-- One engine call: the arguments of `process_with_time` plus the value
the wall clock would show during the call. -/
structure CallIn where
  fps : ℚ
  hz : Nat
  now : Nat
  wall : Nat

/-- Run a sequence of `process_with_time` calls, collecting the returned
decisions; `none` if any call panics. -/
def runCalls (c : HysteresisController) : List CallIn → Option (List (Option Nat) × HysteresisController)
  | [] => some ([], c)
  | i :: rest =>
    match c.process_with_time i.fps i.hz i.now i.wall with
    | none => none
    | some (r, c2) =>
      match runCalls c2 rest with
      | none => none
      | some (rs, c3) => some (r :: rs, c3)

/-- The minimum change interval `apply_mode_constraints` installs for each
device mode (500 ms Oled/Custom, 2000 ms Lcd). -/
def modeMinInterval : DeviceMode → Nat
  | .Lcd => HysteresisController.MIN_CHANGE_INTERVAL_LCD_MS
  | .Oled => HysteresisController.MIN_CHANGE_INTERVAL_OLED_MS
  | .Custom => HysteresisController.MIN_CHANGE_INTERVAL_OLED_MS

/-- The fps-tolerance invariant of the engine: always within
`[MIN_FPS_TOLERANCE, MAX_FPS_TOLERANCE]`. -/
def tolInv (c : HysteresisController) : Prop :=
  MIN_FPS_TOLERANCE ≤ c.fps_tolerance ∧ c.fps_tolerance ≤ MAX_FPS_TOLERANCE

/-! ## Config model (config.rs) -/

/-- The `Config` struct of config.rs (`min_hz`, `max_hz` are `u32`). -/
structure Config where
  min_hz : Nat
  max_hz : Nat
  sensitivity : Sensitivity
  enabled : Bool
deriving DecidableEq

/-- Rust `Config::default`. -/
def Config.default : Config :=
  { min_hz := 40, max_hz := 90, sensitivity := .Balanced, enabled := true }

/-- Rust `ConfigError` (error.rs variants used by config.rs). -/
inductive ConfigError where
  | validationError (msg : String)
  | parseError (msg : String)
deriving DecidableEq

/-- Rust `Config::validate`. -/
def Config.validate (c : Config) : Except ConfigError Unit :=
  if c.max_hz < c.min_hz then
    .error (.validationError "min_hz cannot be greater than max_hz")
  else if c.min_hz < 40 then
    .error (.validationError "min_hz must be at least 40Hz")
  else if 90 < c.max_hz then
    .error (.validationError "max_hz must not exceed 90Hz")
  else .ok ()

/-- A JSON value, as far as the config file needs. -/
inductive Json where
  | num (n : Nat)
  | str (v : String)
  | jbool (b : Bool)
  | obj (fields : List (String × Json))

/-- Rust `Serialize for Sensitivity`. -/
def serializeSensitivity : Sensitivity → String
  | .Conservative => "conservative"
  | .Balanced => "balanced"
  | .Aggressive => "aggressive"

/-- The string match inside `Deserialize for Sensitivity`. -/
def sensitivityFromString (s : String) : Except String Sensitivity :=
  if s = "conservative" then .ok .Conservative
  else if s = "balanced" then .ok .Balanced
  else if s = "aggressive" then .ok .Aggressive
  else .error "invalid sensitivity"

/-- Rust `Deserialize for Sensitivity` (serde first deserializes a `String`). -/
def parseSensitivity : Json → Except String Sensitivity
  | .str s => sensitivityFromString s
  | _ => .error "expected string"

/-- serde deserialization of a `u32` field. -/
def parseU32 : Json → Except String Nat
  | .num n => if n < 2 ^ 32 then .ok n else .error "u32 out of range"
  | _ => .error "expected number"

/-- serde deserialization of a `bool` field. -/
def parseBoolField : Json → Except String Bool
  | .jbool b => .ok b
  | _ => .error "expected bool"

/-- serde-derive field loop for `Config`: visit entries in order, reject a
duplicate field, ignore unknown fields, require all four at the end. -/
def readConfigFields : List (String × Json) → Option Nat → Option Nat →
    Option Sensitivity → Option Bool → Except String Config
  | [], some mn, some mx, some s, some en => .ok ⟨mn, mx, s, en⟩
  | [], _, _, _, _ => .error "missing field"
  | (k, v) :: rest, mn, mx, s, en =>
    if k = "min_hz" then
      match mn with
      | some _ => .error "duplicate field min_hz"
      | none =>
        match parseU32 v with
        | .error e => .error e
        | .ok n => readConfigFields rest (some n) mx s en
    else if k = "max_hz" then
      match mx with
      | some _ => .error "duplicate field max_hz"
      | none =>
        match parseU32 v with
        | .error e => .error e
        | .ok n => readConfigFields rest mn (some n) s en
    else if k = "sensitivity" then
      match s with
      | some _ => .error "duplicate field sensitivity"
      | none =>
        match parseSensitivity v with
        | .error e => .error e
        | .ok sv => readConfigFields rest mn mx (some sv) en
    else if k = "enabled" then
      match en with
      | some _ => .error "duplicate field enabled"
      | none =>
        match parseBoolField v with
        | .error e => .error e
        | .ok b => readConfigFields rest mn mx s (some b)
    else readConfigFields rest mn mx s en

/-- Deserialization of a `Config` from a JSON value. -/
def deserializeConfig : Json → Except String Config
  | .obj fields => readConfigFields fields none none none none
  | _ => .error "expected object"

/-- Serialization of a `Config` to a JSON value (derived `Serialize`
emits the fields in declaration order). -/
def serializeConfig (c : Config) : Json :=
  .obj [("min_hz", .num c.min_hz),
        ("max_hz", .num c.max_hz),
        ("sensitivity", .str (serializeSensitivity c.sensitivity)),
        ("enabled", .jbool c.enabled)]

/-- Whether an `Except` is an error. -/
def isError {ε α : Type} : Except ε α → Bool
  | .error _ => true
  | .ok _ => false

/-- First value stored under a key in a JSON object field list. -/
def findFieldVal : List (String × Json) → String → Option Json
  | [], _ => none
  | (k2, v) :: rest, k => if k2 = k then some v else findFieldVal rest k

/-! ## Display manager (display_control.rs) -/

/-- Rust `MIN_ALLOWED_HZ`. -/
def MIN_ALLOWED_HZ : Nat := 40

/-- Rust `MAX_ALLOWED_HZ`. -/
def MAX_ALLOWED_HZ : Nat := 90

/-- The `DisplayManager` struct (the scalar fields its range logic uses). -/
structure DisplayManager where
  current_hz : Nat
  min_hz : Nat
  max_hz : Nat
deriving DecidableEq

/-- The clamp-and-swap normalization shared by `DisplayManager::new` and
`DisplayManager::set_range` (`u32::clamp` with the constant bounds
`40 ≤ 90` cannot panic). -/
def normalizeRange (min_hz max_hz : Nat) : Nat × Nat :=
  let clamped_min := min (max min_hz MIN_ALLOWED_HZ) MAX_ALLOWED_HZ
  let clamped_max := min (max max_hz MIN_ALLOWED_HZ) MAX_ALLOWED_HZ
  if clamped_max < clamped_min then (clamped_max, clamped_min)
  else (clamped_min, clamped_max)

/-- Rust `DisplayManager::new` (starts at the final max Hz). -/
def DisplayManager.new (min_hz max_hz : Nat) : DisplayManager :=
  let p := normalizeRange min_hz max_hz
  { current_hz := p.2, min_hz := p.1, max_hz := p.2 }

/-- Rust `DisplayManager::set_range`. -/
def DisplayManager.set_range (d : DisplayManager) (min_hz max_hz : Nat) : DisplayManager :=
  let p := normalizeRange min_hz max_hz
  { d with min_hz := p.1, max_hz := p.2 }

/-- Rust `DisplayManager::clamp_hz` (`u32::clamp`, panicking when `min > max`). -/
def DisplayManager.clamp_hz (d : DisplayManager) (hz : Nat) : Option Nat :=
  rustClampU32 hz d.min_hz d.max_hz

/-- The normalized-range invariant of `DisplayManager`. -/
def dmInv (d : DisplayManager) : Prop :=
  MIN_ALLOWED_HZ ≤ d.min_hz ∧ d.min_hz ≤ d.max_hz ∧ d.max_hz ≤ MAX_ALLOWED_HZ

/-! ## Concrete engine values used by counterexamples and witnesses -/

/-- A freshly constructed Balanced controller. -/
def ctrl0 : HysteresisController := HysteresisController.new .Balanced

/-- Engine state for the C1 failing input: mid-drop, with a stored resume
cooldown deadline at 10000 ms. -/
def c1ex : HysteresisController :=
  { ctrl0 with state := .Dropping 0, resume_cooldown_until := some 10000 }

/-- Engine state for the C2 counterexample: one second into a drop. -/
def c2ex : HysteresisController :=
  { ctrl0 with state := .Dropping 0 }

/-- Engine state for the C3 counterexample: mid-drop. -/
def c3ex : HysteresisController :=
  { ctrl0 with state := .Dropping 5 }

/-- Engine state for the C4 counterexample: external display detected. -/
def c4ex : HysteresisController :=
  { ctrl0 with external_display_detected := true }

/-- Engine state for the C5 counterexample: user range 70–90, three
seconds into an increase. -/
def c5ex : HysteresisController :=
  { ctrl0 with user_min_hz := 70, state := .Increasing 0 }

/-- C6 witness start state: three seconds into an increase. -/
def c6w0 : HysteresisController :=
  { ctrl0 with state := .Increasing 0 }

/-- C6 witness state after the first emitting call (at 3000 ms). -/
def c6c1 : HysteresisController :=
  { ctrl0 with fps_window := ⟨[80], 10⟩, state := .Stable,
               last_change := some 3000, last_set_hz := some 65 }

/-- C6 witness state after the intermediate non-emitting call (at 3100 ms). -/
def c6c2 : HysteresisController :=
  { c6c1 with fps_window := ⟨[80, 80], 10⟩, state := .Increasing 3100 }

/-- C6 witness state after the second emitting call (at 6200 ms). -/
def c6c3 : HysteresisController :=
  { c6c2 with fps_window := ⟨[80, 80, 80], 10⟩, state := .Stable,
               last_change := some 6200, last_set_hz := some 70 }

/-- C9 witness state after one `process_with_time` call on `ctrl0`. -/
def c9c1 : HysteresisController :=
  { ctrl0 with fps_window := ⟨[50], 10⟩, state := .Dropping 0 }

/-!
## Helper lemmas

`Rat.add`/`Rat.sub`/`Rat.mul`/`Rat.inv` are `@[irreducible]` in Batteries;
restore the ordinary transparency locally so that `decide` can evaluate
the engine on concrete rational inputs.
-/

attribute [local semireducible] Rat.add Rat.sub Rat.mul Rat.inv Rat.ofScientific

namespace HysteresisController

theorem apply_adaptive_state (c : HysteresisController) :
    c.apply_adaptive_sensitivity.state = c.state := by
  unfold apply_adaptive_sensitivity
  repeat' split
  all_goals rfl

theorem apply_adaptive_min_change_interval (c : HysteresisController) :
    c.apply_adaptive_sensitivity.min_change_interval = c.min_change_interval := by
  unfold apply_adaptive_sensitivity
  repeat' split
  all_goals rfl

theorem apply_adaptive_last_change (c : HysteresisController) :
    c.apply_adaptive_sensitivity.last_change = c.last_change := by
  unfold apply_adaptive_sensitivity
  repeat' split
  all_goals rfl

theorem apply_adaptive_device_mode (c : HysteresisController) :
    c.apply_adaptive_sensitivity.device_mode = c.device_mode := by
  unfold apply_adaptive_sensitivity
  repeat' split
  all_goals rfl

theorem apply_adaptive_user_min_hz (c : HysteresisController) :
    c.apply_adaptive_sensitivity.user_min_hz = c.user_min_hz := by
  unfold apply_adaptive_sensitivity
  repeat' split
  all_goals rfl

theorem apply_adaptive_user_max_hz (c : HysteresisController) :
    c.apply_adaptive_sensitivity.user_max_hz = c.user_max_hz := by
  unfold apply_adaptive_sensitivity
  repeat' split
  all_goals rfl

theorem apply_adaptive_fps_tolerance (c : HysteresisController) :
    c.apply_adaptive_sensitivity.fps_tolerance = c.fps_tolerance := by
  unfold apply_adaptive_sensitivity
  repeat' split
  all_goals rfl

theorem apply_adaptive_external (c : HysteresisController) :
    c.apply_adaptive_sensitivity.external_display_detected = c.external_display_detected := by
  unfold apply_adaptive_sensitivity
  repeat' split
  all_goals rfl

theorem apply_adaptive_cooldown_until (c : HysteresisController) :
    c.apply_adaptive_sensitivity.resume_cooldown_until = c.resume_cooldown_until := by
  unfold apply_adaptive_sensitivity
  repeat' split
  all_goals rfl

theorem apply_adaptive_fps_window (c : HysteresisController) :
    c.apply_adaptive_sensitivity.fps_window = c.fps_window := by
  unfold apply_adaptive_sensitivity
  repeat' split
  all_goals rfl

theorem apply_adaptive_effective_range (c : HysteresisController) :
    c.apply_adaptive_sensitivity.get_effective_range = c.get_effective_range := by
  unfold get_effective_range
  rw [apply_adaptive_device_mode, apply_adaptive_user_min_hz, apply_adaptive_user_max_hz]

theorem apply_adaptive_cooldown (c : HysteresisController) (wall : Nat) :
    c.apply_adaptive_sensitivity.is_in_resume_cooldown wall = c.is_in_resume_cooldown wall := by
  unfold is_in_resume_cooldown
  rw [apply_adaptive_cooldown_until]

theorem apply_adaptive_can_change (c : HysteresisController) (now : Nat) :
    c.apply_adaptive_sensitivity.can_change now = c.can_change now := by
  unfold can_change
  rw [apply_adaptive_last_change, apply_adaptive_min_change_interval]

theorem apply_adaptive_target (c : HysteresisController) (fps : ℚ) :
    c.apply_adaptive_sensitivity.target_hz_for_drop fps = c.target_hz_for_drop fps := by
  unfold target_hz_for_drop
  rw [apply_adaptive_effective_range]

theorem apply_adaptive_next_step (c : HysteresisController) (hz : Nat) :
    c.apply_adaptive_sensitivity.next_step_up hz = c.next_step_up hz := by
  unfold next_step_up
  rw [apply_adaptive_effective_range]

theorem can_change_true {c : HysteresisController} {now : Nat}
    (h : c.can_change now = true) :
    ∀ prev, c.last_change = some prev → c.min_change_interval ≤ now - prev := by
  intro prev hp
  unfold can_change at h
  rw [hp] at h
  simpa using h

theorem process_with_time_fields {c : HysteresisController} {fps : ℚ} {hz now wall : Nat}
    {r : Option Nat} {c2 : HysteresisController}
    (h : c.process_with_time fps hz now wall = some (r, c2)) :
    c2.min_change_interval = c.min_change_interval ∧
    c2.device_mode = c.device_mode ∧
    c2.fps_tolerance = c.fps_tolerance ∧
    c2.user_min_hz = c.user_min_hz ∧
    c2.user_max_hz = c.user_max_hz ∧
    (r = none → c2.last_change = c.last_change) ∧
    (∀ t, r = some t → c2.last_change = some now ∧
      ∀ prev, c.last_change = some prev → c.min_change_interval ≤ now - prev) := by
  simp only [process_with_time] at h
  simp only [apply_adaptive_can_change, apply_adaptive_cooldown, apply_adaptive_external,
             apply_adaptive_fps_tolerance, apply_adaptive_state, apply_adaptive_effective_range,
             apply_adaptive_target, apply_adaptive_next_step] at h
  repeat' split at h
  any_goals exact Option.noConfusion h
  all_goals
    simp only [Option.some.injEq, Prod.mk.injEq] at h
  all_goals
    obtain ⟨hr, hc2⟩ := h
  all_goals
    subst hr
  all_goals
    subst hc2
  all_goals
    refine ⟨by simp [apply_adaptive_min_change_interval],
            by simp [apply_adaptive_device_mode],
            by simp [apply_adaptive_fps_tolerance],
            by simp [apply_adaptive_user_min_hz],
            by simp [apply_adaptive_user_max_hz],
            by simp [apply_adaptive_last_change],
            fun t ht => ?_⟩
  any_goals exact Option.noConfusion ht
  all_goals
    injection ht with ht1
  all_goals
    subst ht1
  all_goals
    exact ⟨by simp, can_change_true (by assumption)⟩

theorem push_target (c : HysteresisController) (w : FpsSlidingWindow) (fps : ℚ) :
    ({ c with fps_window := w } : HysteresisController).target_hz_for_drop fps
      = c.target_hz_for_drop fps := rfl

theorem push_next_step (c : HysteresisController) (w : FpsSlidingWindow) (hz : Nat) :
    ({ c with fps_window := w } : HysteresisController).next_step_up hz
      = c.next_step_up hz := rfl

theorem push_effective_range (c : HysteresisController) (w : FpsSlidingWindow) :
    ({ c with fps_window := w } : HysteresisController).get_effective_range
      = c.get_effective_range := rfl

theorem quantize_down_mod5 (n : Nat) : quantize_hz_down n % 5 = 0 := by
  unfold quantize_hz_down HZ_STEP_SIZE
  omega

theorem next_step_mod5 (c : HysteresisController) (hz : Nat) :
    c.next_step_up hz % 5 = 0 := by
  simp only [next_step_up, quantize_hz, HZ_STEP_SIZE]
  omega

theorem next_step_le {c : HysteresisController} (hz : Nat)
    (h5 : c.get_effective_range.2 % 5 = 0) :
    c.next_step_up hz ≤ c.get_effective_range.2 := by
  simp only [next_step_up, quantize_hz, HZ_STEP_SIZE]
  omega

theorem effective_range_mod5 {c : HysteresisController}
    (h1 : c.user_min_hz % 5 = 0) (h2 : c.user_max_hz % 5 = 0) :
    c.get_effective_range.1 % 5 = 0 ∧ c.get_effective_range.2 % 5 = 0 := by
  unfold get_effective_range LCD_MIN_HZ LCD_MAX_HZ
  split <;> constructor <;> simp <;> omega

theorem target_drop_spec {c : HysteresisController} {fps : ℚ} {t : Nat}
    (h1 : c.get_effective_range.1 % 5 = 0) (h2 : c.get_effective_range.2 % 5 = 0)
    (h : c.target_hz_for_drop fps = some t) :
    t % 5 = 0 ∧ c.get_effective_range.1 ≤ t ∧ t ≤ c.get_effective_range.2 := by
  simp only [target_hz_for_drop, rustClampU32] at h
  split at h
  · exact Option.noConfusion h
  · injection h with hv
    have hx := quantize_down_mod5 (floorAsU32 fps)
    subst hv
    refine ⟨?_, ?_, ?_⟩ <;> omega

theorem process_emit_bounds {c : HysteresisController} {fps : ℚ} {hz now wall t : Nat}
    {c2 : HysteresisController}
    (hmin5 : c.user_min_hz % 5 = 0) (hmax5 : c.user_max_hz % 5 = 0)
    (h : c.process_with_time fps hz now wall = some (some t, c2)) :
    t % 5 = 0 ∧ t ≤ c.get_effective_range.2 ∧
      (c.get_effective_range.1 ≤ t ∨ hz < t) := by
  have her := effective_range_mod5 hmin5 hmax5
  simp only [process_with_time] at h
  simp only [apply_adaptive_can_change, apply_adaptive_cooldown, apply_adaptive_external,
             apply_adaptive_fps_tolerance, apply_adaptive_state, apply_adaptive_effective_range,
             apply_adaptive_target, apply_adaptive_next_step,
             push_target, push_next_step, push_effective_range] at h
  repeat' split at h
  any_goals exact Option.noConfusion h
  all_goals
    simp only [Option.some.injEq, Prod.mk.injEq] at h
  all_goals
    obtain ⟨hr, hc2⟩ := h
  any_goals exact Option.noConfusion hr
  all_goals
    subst hr
  next =>
    have hts := target_drop_spec her.1 her.2 (by assumption)
    exact ⟨hts.1, hts.2.2, Or.inl hts.2.1⟩
  next =>
    refine ⟨next_step_mod5 c hz, next_step_le hz her.2, Or.inr ?_⟩
    omega

end HysteresisController

theorem runCalls_none_fields {calls : List CallIn} {c c2 : HysteresisController}
    {outs : List (Option Nat)}
    (h : runCalls c calls = some (outs, c2))
    (hnone : ∀ o ∈ outs, o = none) :
    c2.last_change = c.last_change ∧ c2.min_change_interval = c.min_change_interval := by
  induction calls generalizing c outs with
  | nil =>
    simp only [runCalls, Option.some.injEq, Prod.mk.injEq] at h
    obtain ⟨h1, h2⟩ := h
    subst h2
    exact ⟨rfl, rfl⟩
  | cons i rest ih =>
    simp only [runCalls] at h
    split at h
    · exact Option.noConfusion h
    · rename_i r cm hp
      split at h
      · exact Option.noConfusion h
      · rename_i rs c3 hrest
        simp only [Option.some.injEq, Prod.mk.injEq] at h
        obtain ⟨h1, h2⟩ := h
        subst h2
        subst h1
        have hf := HysteresisController.process_with_time_fields hp
        have hr : r = none := hnone r (by simp)
        subst hr
        have hlc := hf.2.2.2.2.2.1 rfl
        have hmi := hf.1
        have hrec := ih hrest (fun o ho => hnone o (by simp [ho]))
        exact ⟨hrec.1.trans hlc, hrec.2.trans hmi⟩

theorem readConfigFields_canonical (mn mx : Nat) (s : Sensitivity) (en : Bool)
    (h1 : mn < 2 ^ 32) (h2 : mx < 2 ^ 32) :
    readConfigFields
      [("min_hz", .num mn), ("max_hz", .num mx),
       ("sensitivity", .str (serializeSensitivity s)), ("enabled", .jbool en)]
      none none none none = .ok ⟨mn, mx, s, en⟩ := by
  have hm1 : mn < 4294967296 := by omega
  have hm2 : mx < 4294967296 := by omega
  cases s <;>
    simp [readConfigFields, parseU32, parseSensitivity, sensitivityFromString,
          parseBoolField, serializeSensitivity, hm1, hm2]

theorem sensitivityFromString_unknown {s : String}
    (hc : s ≠ "conservative") (hb : s ≠ "balanced") (ha : s ≠ "aggressive") :
    sensitivityFromString s = .error "invalid sensitivity" := by
  simp [sensitivityFromString, hc, hb, ha]

theorem readConfigFields_bad_sensitivity {fields : List (String × Json)} {s : String}
    (hfind : findFieldVal fields "sensitivity" = some (.str s))
    (hc : s ≠ "conservative") (hb : s ≠ "balanced") (ha : s ≠ "aggressive") :
    ∀ mn mx en, isError (readConfigFields fields mn mx none en) = true := by
  induction fields with
  | nil => simp [findFieldVal] at hfind
  | cons kv rest ih =>
    obtain ⟨k, v⟩ := kv
    intro mn mx en
    by_cases hk : k = "sensitivity"
    · subst hk
      have hv : v = Json.str s := by simpa [findFieldVal] using hfind
      subst hv
      simp [readConfigFields, parseSensitivity,
            sensitivityFromString_unknown hc hb ha, isError]
    · have hfind2 : findFieldVal rest "sensitivity" = some (.str s) := by
        simpa [findFieldVal, hk] using hfind
      simp only [readConfigFields]
      by_cases h1 : k = "min_hz"
      · rw [if_pos h1]
        cases mn with
        | some _ => simp [isError]
        | none =>
          cases v with
          | num n =>
            by_cases hn : n < 2 ^ 32
            · simp only [parseU32, if_pos hn]
              exact ih hfind2 (some n) mx en
            · have hn2 : ¬ n < 4294967296 := by omega
              simp [parseU32, hn2, isError]
          | str v2 => simp [parseU32, isError]
          | jbool b => simp [parseU32, isError]
          | obj fs => simp [parseU32, isError]
      · by_cases h2 : k = "max_hz"
        · rw [if_neg h1, if_pos h2]
          cases mx with
          | some _ => simp [isError]
          | none =>
            cases v with
            | num n =>
              by_cases hn : n < 2 ^ 32
              · simp only [parseU32, if_pos hn]
                exact ih hfind2 mn (some n) en
              · have hn2 : ¬ n < 4294967296 := by omega
                simp [parseU32, hn2, isError]
            | str v2 => simp [parseU32, isError]
            | jbool b => simp [parseU32, isError]
            | obj fs => simp [parseU32, isError]
        · by_cases h3 : k = "enabled"
          · rw [if_neg h1, if_neg h2, if_neg hk, if_pos h3]
            cases en with
            | some _ => simp [isError]
            | none =>
              cases v with
              | num n => simp [parseBoolField, isError]
              | str v2 => simp [parseBoolField, isError]
              | jbool b =>
                simp only [parseBoolField]
                exact ih hfind2 mn mx (some b)
              | obj fs => simp [parseBoolField, isError]
          · rw [if_neg h1, if_neg h2, if_neg hk, if_neg h3]
            exact ih hfind2 mn mx en

open HysteresisController

theorem apply_mode_constraints_interval (c : HysteresisController) (m : DeviceMode) :
    (c.apply_mode_constraints m).min_change_interval = modeMinInterval m := by
  cases m <;> rfl

theorem new_interval (s : Sensitivity) :
    (HysteresisController.new s).min_change_interval
      = modeMinInterval (HysteresisController.new s).device_mode := rfl

/-- C1: the claim asks `process_with_time` to be deterministic in
(state, config, fps, current_hz, now) with the resume-cooldown gate read
off the explicit `now`; in the code the gate compares the stored deadline
against `Instant::now()`, so two calls with identical state, config and
arguments diverge when made at different wall-clock times. -/
theorem c1_resume_gate_reads_wall_clock :
    (c1ex.process_with_time 30 60 5000 0).map (fun r => r.1) = some none ∧
    (c1ex.process_with_time 30 60 5000 20000).map (fun r => r.1) = some (some 40) ∧
    c1ex.process_with_time 30 60 5000 0 ≠ c1ex.process_with_time 30 60 5000 20000 := by
  refine ⟨by decide, by decide, ?_⟩
  decide

/-- C2 counterexample: with fps = 0 the engine still emits a drop target
(here `Some 40` from one second into a drop at 60 Hz), and from the Stable
state a zero-fps sample moves the state to Dropping. -/
theorem c2_counterexample :
    (c2ex.process_with_time 0 60 1000 0).map (fun r => r.1) = some (some 40) ∧
    (ctrl0.process_with_time 0 60 0 0).map (fun r => r.2.state) =
      some (AlgorithmState.Dropping 0) := by
  constructor <;> decide

/-- C2 amended: the engine has no fps ≤ 0 guard; a non-positive fps sample
is appended to the adaptive window and treated as an ordinary
below-threshold sample, so from Stable (no gates, fps tolerance at most
current_hz, current_hz above the effective minimum) the call returns None
but moves the state to Dropping. -/
theorem c2_zero_fps_enters_dropping (c : HysteresisController) (fps : ℚ)
    (hz now wall : Nat)
    (hext : c.external_display_detected = false)
    (hcool : c.is_in_resume_cooldown wall = false)
    (hstate : c.state = AlgorithmState.Stable)
    (hfps : fps ≤ 0)
    (hhz : 2 ≤ hz)
    (htol : c.fps_tolerance ≤ (hz : ℚ))
    (hmin : c.get_effective_range.1 < hz) :
    ∃ c2, c.process_with_time fps hz now wall = some (none, c2) ∧
      c2.state = AlgorithmState.Dropping now ∧
      c2.fps_window = c.fps_window.push fps := by
  have hcast : (2 : ℚ) ≤ (hz : ℚ) := by exact_mod_cast hhz
  have habs : ¬ (|fps - (hz : ℚ)| < c.fps_tolerance) := by
    have h1 : |fps - (hz : ℚ)| = (hz : ℚ) - fps := by
      rw [abs_sub_comm]
      exact abs_of_nonneg (by linarith)
    rw [h1]
    intro hlt
    linarith
  have hbelow : fps < (hz : ℚ) - 1 := by linarith
  have key : c.process_with_time fps hz now wall =
      some (none, { (({ c with fps_window := c.fps_window.push fps } :
        HysteresisController).apply_adaptive_sensitivity) with
        state := AlgorithmState.Dropping now }) := by
    simp only [process_with_time]
    set ca := ({ c with fps_window := c.fps_window.push fps } :
        HysteresisController).apply_adaptive_sensitivity with hca
    have h1 : ca.external_display_detected = false := by
      rw [hca, apply_adaptive_external]; exact hext
    have h2 : ca.is_in_resume_cooldown wall = false := by
      rw [hca, apply_adaptive_cooldown]; exact hcool
    have h3 : ¬ (|fps - (hz : ℚ)| < ca.fps_tolerance) := by
      rw [hca, apply_adaptive_fps_tolerance]; exact habs
    have h4 : ca.state = AlgorithmState.Stable := by
      rw [hca, apply_adaptive_state]; exact hstate
    have h5 : ca.get_effective_range = c.get_effective_range := by
      rw [hca, apply_adaptive_effective_range, push_effective_range]
    simp only [h1, h2, h3, h4, h5, Bool.false_eq_true, if_false, hbelow, hmin,
               and_self, if_true]
  exact ⟨_, key, rfl, by simp [apply_adaptive_fps_window]⟩

/-- C3 counterexample: `set_user_range` does not reset the algorithm state
to Stable (a controller mid-drop stays mid-drop). -/
theorem c3_counterexample :
    (c3ex.set_user_range 40 90).state ≠ AlgorithmState.Stable := by decide

/-- C3 amended: `set_sensitivity` and `apply_mode_constraints` reset the
state to Stable and leave `last_change` untouched; `set_user_range` leaves
both the state and `last_change` unchanged, only updating the bounds. -/
theorem c3_state_resets :
    (∀ (c : HysteresisController) (s : Sensitivity),
        (c.set_sensitivity s).state = AlgorithmState.Stable ∧
        (c.set_sensitivity s).last_change = c.last_change) ∧
    (∀ (c : HysteresisController) (m : DeviceMode),
        (c.apply_mode_constraints m).state = AlgorithmState.Stable ∧
        (c.apply_mode_constraints m).last_change = c.last_change) ∧
    (∀ (c : HysteresisController) (a b : Nat),
        (c.set_user_range a b).state = c.state ∧
        (c.set_user_range a b).last_change = c.last_change ∧
        (c.set_user_range a b).user_min_hz = a ∧
        (c.set_user_range a b).user_max_hz = b) :=
  ⟨fun _ _ => ⟨rfl, rfl⟩, fun _ _ => ⟨rfl, rfl⟩, fun _ _ _ => ⟨rfl, rfl, rfl, rfl⟩⟩


/-- C4 counterexample: with the external-display pause gate armed, a
`process_with_time` call still appends the sample to the adaptive variance
window (the window length grows from 0 to 1). -/
theorem c4_counterexample :
    (c4ex.process_with_time 50 60 0 0).map (fun r => r.2.fps_window.samples.length)
      = some 1 ∧
    c4ex.fps_window.samples.length = 0 := by
  constructor <;> decide

/-- C4 amended: while a pause gate is active (external display detected or
the wall clock is before the stored resume deadline), `process_with_time`
returns None and sets the state to Stable, but the result is exactly the
controller after the variance-window push and the adaptive-sensitivity
update, because those two steps run before the gates. -/
theorem c4_pause_gate_after_variance_update (c : HysteresisController) (fps : ℚ)
    (hz now wall : Nat)
    (hgate : c.external_display_detected = true ∨ c.is_in_resume_cooldown wall = true) :
    c.process_with_time fps hz now wall =
      some (none, { (({ c with fps_window := c.fps_window.push fps } :
        HysteresisController).apply_adaptive_sensitivity) with
        state := AlgorithmState.Stable }) := by
  simp only [process_with_time]
  set ca := ({ c with fps_window := c.fps_window.push fps } :
      HysteresisController).apply_adaptive_sensitivity with hca
  by_cases hext : c.external_display_detected = true
  · have h1 : ca.external_display_detected = true := by
      rw [hca, apply_adaptive_external]; exact hext
    simp only [h1, if_true]
  · have h1 : ca.external_display_detected = false := by
      rw [hca, apply_adaptive_external]
      exact Bool.not_eq_true _ |>.mp hext
    have hcool : c.is_in_resume_cooldown wall = true := hgate.resolve_left hext
    have h2 : ca.is_in_resume_cooldown wall = true := by
      rw [hca, apply_adaptive_cooldown]; exact hcool
    simp only [h1, h2, Bool.false_eq_true, if_false, if_true]

/-- C5 counterexample: with user range 70-90 (both multiples of 5, within
40-90) and current_hz = 40 below the effective minimum, the increase path
emits `Some 45`, which is outside the effective range. -/
theorem c5_counterexample :
    (c5ex.process_with_time 80 40 3000 0).map (fun r => r.1) = some (some 45) ∧
    c5ex.get_effective_range.1 = 70 ∧
    (c5ex.get_effective_range.1 ≤ 45 → False) := by
  refine ⟨by decide, by decide, by decide⟩

/-- C5 amended: with user bounds that are multiples of 5 in 40-90, every
emitted target is a multiple of 5 and at most the effective maximum;
drop-path targets also lie at or above the effective minimum, while
increase-path targets are only guaranteed to exceed current_hz, and can
fall below the effective minimum when current_hz does. -/
theorem c5_quantization (c : HysteresisController) (fps : ℚ)
    (hz now wall t : Nat) (c2 : HysteresisController)
    (_hlo : 40 ≤ c.user_min_hz) (_hmm : c.user_min_hz ≤ c.user_max_hz)
    (_hhi : c.user_max_hz ≤ 90)
    (hmin5 : c.user_min_hz % 5 = 0) (hmax5 : c.user_max_hz % 5 = 0)
    (h : c.process_with_time fps hz now wall = some (some t, c2)) :
    t % 5 = 0 ∧ t ≤ c.get_effective_range.2 ∧
      (c.get_effective_range.1 ≤ t ∨ hz < t) :=
  process_emit_bounds hmin5 hmax5 h

/-- C5 witness: the amended claim applied to a concrete increase emission. -/
theorem c5_witness :
    65 % 5 = 0 ∧ 65 ≤ c6w0.get_effective_range.2 ∧
      (c6w0.get_effective_range.1 ≤ 65 ∨ 60 < 65) :=
  c5_quantization c6w0 80 60 3000 0 65 c6c1 (by decide) (by decide) (by decide)
    (by decide) (by decide) (by decide)

/-- C6: between two successive emitted decisions (with only non-emitting
calls in between, and the controller's minimum change interval matching
its device mode as `apply_mode_constraints` installs it), the second
emission is at least the mode minimum change interval (500 ms Oled and
Custom, 2000 ms Lcd) after the first. -/
theorem c6_min_change_interval (c : HysteresisController) (a b : CallIn)
    (mid : List CallIn) (h1 h2 : Nat) (outs : List (Option Nat))
    (c1 c2 c3 : HysteresisController)
    (hint : c.min_change_interval = modeMinInterval c.device_mode)
    (ha : c.process_with_time a.fps a.hz a.now a.wall = some (some h1, c1))
    (hmid : runCalls c1 mid = some (outs, c2))
    (hnone : ∀ o ∈ outs, o = none)
    (hb : c2.process_with_time b.fps b.hz b.now b.wall = some (some h2, c3)) :
    a.now + modeMinInterval c.device_mode ≤ b.now := by
  have fa := process_with_time_fields ha
  have hlc1 : c1.last_change = some a.now := (fa.2.2.2.2.2.2 h1 rfl).1
  have mida := runCalls_none_fields hmid hnone
  have fb := process_with_time_fields hb
  have hcan := (fb.2.2.2.2.2.2 h2 rfl).2
  have h2lc : c2.last_change = some a.now := mida.1.trans hlc1
  have hge := hcan a.now h2lc
  have hm : c2.min_change_interval = c.min_change_interval := mida.2.trans fa.1
  have hpos : 0 < modeMinInterval c.device_mode := by
    cases hdm : c.device_mode <;> decide
  omega

/-- C6 witness: two concrete emissions 3200 ms apart on an Oled engine. -/
theorem c6_witness : (3000 : Nat) + modeMinInterval c6w0.device_mode ≤ 6200 :=
  c6_min_change_interval c6w0 ⟨80, 60, 3000, 0⟩ ⟨80, 65, 6200, 0⟩
    [⟨80, 65, 3100, 0⟩] 65 70 [none] c6c1 c6c2 c6c3
    (by decide) (by decide) (by decide) (by decide) (by decide)

/-- C7: when no pause gate is armed and the fps is within the configured
tolerance of the current rate, `process_with_time` returns None and forces
the state to Stable, for every prior algorithm state. -/
theorem c7_sticky_target (c : HysteresisController) (fps : ℚ)
    (hz now wall : Nat)
    (hext : c.external_display_detected = false)
    (hcool : c.is_in_resume_cooldown wall = false)
    (htol : |fps - (hz : ℚ)| < c.fps_tolerance) :
    ∃ c2, c.process_with_time fps hz now wall = some (none, c2) ∧
      c2.state = AlgorithmState.Stable := by
  have key : c.process_with_time fps hz now wall =
      some (none, { (({ c with fps_window := c.fps_window.push fps } :
        HysteresisController).apply_adaptive_sensitivity) with
        state := AlgorithmState.Stable }) := by
    simp only [process_with_time]
    set ca := ({ c with fps_window := c.fps_window.push fps } :
        HysteresisController).apply_adaptive_sensitivity with hca
    have h1 : ca.external_display_detected = false := by
      rw [hca, apply_adaptive_external]; exact hext
    have h2 : ca.is_in_resume_cooldown wall = false := by
      rw [hca, apply_adaptive_cooldown]; exact hcool
    have h3 : |fps - (hz : ℚ)| < ca.fps_tolerance := by
      rw [hca, apply_adaptive_fps_tolerance]; exact htol
    simp only [h1, h2, h3, Bool.false_eq_true, if_false, if_true]
  exact ⟨_, key, rfl⟩

/-- C7 witness: the sticky target on a concrete in-tolerance sample. -/
theorem c7_witness :
    ∃ c2, ctrl0.process_with_time 59 60 0 0 = some (none, c2) ∧
      c2.state = AlgorithmState.Stable :=
  c7_sticky_target ctrl0 59 60 0 0 rfl rfl (by decide)


/-- C2 witness: the amended claim applied to a concrete zero-fps call. -/
theorem c2_witness :
    ∃ c2, ctrl0.process_with_time 0 60 0 0 = some (none, c2) ∧
      c2.state = AlgorithmState.Dropping 0 ∧
      c2.fps_window = ctrl0.fps_window.push 0 :=
  c2_zero_fps_enters_dropping ctrl0 0 60 0 0 rfl rfl rfl (by decide) (by decide)
    (by decide) (by decide)

/-- C4 witness: the amended claim applied to an engine with the
external-display gate armed. -/
theorem c4_witness :
    c4ex.process_with_time 50 60 0 0 =
      some (none, { (({ c4ex with fps_window := c4ex.fps_window.push 50 } :
        HysteresisController).apply_adaptive_sensitivity) with
        state := AlgorithmState.Stable }) :=
  c4_pause_gate_after_variance_update c4ex 50 60 0 0 (Or.inl rfl)

/-- C8: serializing a valid config and deserializing it yields the same
config; a config with min over max, min below 40 or max above 90 fails
`validate`; and deserialization rejects any JSON object whose first
`sensitivity` entry holds an unknown string. -/
theorem c8_config_roundtrip_validation :
    (∀ cfg : Config, cfg.validate = .ok () →
        deserializeConfig (serializeConfig cfg) = .ok cfg) ∧
    (∀ cfg : Config,
        cfg.min_hz > cfg.max_hz ∨ cfg.min_hz < 40 ∨ cfg.max_hz > 90 →
        isError cfg.validate = true) ∧
    (∀ (fields : List (String × Json)) (s : String),
        findFieldVal fields "sensitivity" = some (.str s) →
        s ≠ "conservative" → s ≠ "balanced" → s ≠ "aggressive" →
        isError (deserializeConfig (.obj fields)) = true) := by
  refine ⟨?_, ?_, ?_⟩
  · intro cfg hv
    unfold Config.validate at hv
    split at hv
    · exact Except.noConfusion hv
    split at hv
    · exact Except.noConfusion hv
    split at hv
    · exact Except.noConfusion hv
    have hm1 : cfg.min_hz < 2 ^ 32 := by omega
    have hm2 : cfg.max_hz < 2 ^ 32 := by omega
    obtain ⟨mn, mx, s, en⟩ := cfg
    exact readConfigFields_canonical mn mx s en hm1 hm2
  · intro cfg hbad
    unfold Config.validate
    split_ifs with p1 p2 p3
    any_goals rfl
    exact absurd hbad (by omega)
  · intro fields s hfind hc hb ha
    exact readConfigFields_bad_sensitivity hfind hc hb ha none none none

/-- C8 witness: the three parts applied at concrete configs and documents. -/
theorem c8_witness :
    deserializeConfig (serializeConfig Config.default) = .ok Config.default ∧
    isError (Config.validate
      { min_hz := 80, max_hz := 60, sensitivity := .Balanced, enabled := true }) = true ∧
    isError (deserializeConfig (.obj [("sensitivity", .str "weird")])) = true :=
  ⟨c8_config_roundtrip_validation.1 Config.default (by rfl),
   c8_config_roundtrip_validation.2.1 _ (Or.inl (by decide)),
   c8_config_roundtrip_validation.2.2 [("sensitivity", .str "weird")] "weird"
     (by rfl) (by decide) (by decide) (by decide)⟩

/-- C9: `set_fps_tolerance` stores `clamp(v, 2, 5)` instead of rejecting
out-of-range input; the tolerance starts at 3.0 and stays in [2, 5] under
every engine operation. -/
theorem c9_fps_tolerance_invariant :
    (∀ (c : HysteresisController) (v : ℚ),
        (c.set_fps_tolerance v).fps_tolerance
          = f64Clamp v MIN_FPS_TOLERANCE MAX_FPS_TOLERANCE) ∧
    (∀ s, (HysteresisController.new s).fps_tolerance = DEFAULT_FPS_TOLERANCE) ∧
    (∀ (c : HysteresisController) (v : ℚ), tolInv (c.set_fps_tolerance v)) ∧
    (∀ (c : HysteresisController) (a b : Nat), tolInv c → tolInv (c.set_user_range a b)) ∧
    (∀ (c : HysteresisController) (s : Sensitivity), tolInv c → tolInv (c.set_sensitivity s)) ∧
    (∀ (c : HysteresisController) (m : DeviceMode), tolInv c → tolInv (c.apply_mode_constraints m)) ∧
    (∀ (c : HysteresisController) (b : Bool), tolInv c → tolInv (c.set_adaptive_sensitivity b)) ∧
    (∀ (c : HysteresisController) (b : Bool), tolInv c → tolInv (c.set_external_display_detected b)) ∧
    (∀ (c : HysteresisController) (w : Nat), tolInv c → tolInv (c.reset_state w)) ∧
    (∀ (c : HysteresisController) (s : Nat), tolInv c → tolInv (c.set_resume_cooldown s)) ∧
    (∀ (c : HysteresisController) (b : Bool), tolInv c → tolInv (c.set_sync_frame_limiter b)) ∧
    (∀ (c : HysteresisController) (hz : Nat), tolInv c → tolInv (c.set_last_hz hz)) ∧
    (∀ (c : HysteresisController) (fps : ℚ) (hz now wall : Nat)
        (r : Option Nat) (c2 : HysteresisController),
        c.process_with_time fps hz now wall = some (r, c2) →
        tolInv c → tolInv c2) := by
  refine ⟨fun c v => rfl, fun s => rfl, ?_, fun c a b h => h, fun c s h => h,
          fun c m h => h, ?_, ?_, fun c w h => h, fun c s h => h,
          fun c b h => h, fun c hz h => h, ?_⟩
  · intro c v
    show MIN_FPS_TOLERANCE ≤ f64Clamp v MIN_FPS_TOLERANCE MAX_FPS_TOLERANCE ∧
      f64Clamp v MIN_FPS_TOLERANCE MAX_FPS_TOLERANCE ≤ MAX_FPS_TOLERANCE
    unfold f64Clamp MIN_FPS_TOLERANCE MAX_FPS_TOLERANCE
    split_ifs <;> constructor <;> linarith
  · intro c b h
    unfold HysteresisController.set_adaptive_sensitivity
    split <;> exact h
  · intro c b h
    unfold HysteresisController.set_external_display_detected
    split <;> exact h
  · intro c fps hz now wall r c2 hp h
    unfold tolInv at h ⊢
    rw [(HysteresisController.process_with_time_fields hp).2.2.1]
    exact h

/-- C9 witness: the clamped setter and the invariant at concrete values. -/
theorem c9_witness :
    (ctrl0.set_fps_tolerance 10).fps_tolerance
      = f64Clamp 10 MIN_FPS_TOLERANCE MAX_FPS_TOLERANCE ∧
    tolInv (ctrl0.set_fps_tolerance 10) ∧
    tolInv c9c1 :=
  ⟨c9_fps_tolerance_invariant.1 ctrl0 10,
   c9_fps_tolerance_invariant.2.2.1 ctrl0 10,
   c9_fps_tolerance_invariant.2.2.2.2.2.2.2.2.2.2.2.2 ctrl0 50 60 0 0 none c9c1
     (by decide) ⟨by decide, by decide⟩⟩

/-- C10: `DisplayManager::new` and `set_range` normalize any pair of
bounds into 40 ≤ min ≤ max ≤ 90 (clamping out-of-range values and
swapping a reversed pair), and `clamp_hz` then always returns a value
inside the stored range. -/
theorem c10_display_range_normalized :
    (∀ mn mx, dmInv (DisplayManager.new mn mx)) ∧
    (∀ (d : DisplayManager) (mn mx : Nat), dmInv (d.set_range mn mx)) ∧
    (∀ (d : DisplayManager) (hz : Nat), dmInv d →
        ∃ v, d.clamp_hz hz = some v ∧ d.min_hz ≤ v ∧ v ≤ d.max_hz) := by
  have hn : ∀ mn mx, MIN_ALLOWED_HZ ≤ (normalizeRange mn mx).1 ∧
      (normalizeRange mn mx).1 ≤ (normalizeRange mn mx).2 ∧
      (normalizeRange mn mx).2 ≤ MAX_ALLOWED_HZ := by
    intro mn mx
    simp only [normalizeRange, MIN_ALLOWED_HZ, MAX_ALLOWED_HZ]
    split <;> refine ⟨?_, ?_, ?_⟩ <;> omega
  refine ⟨fun mn mx => hn mn mx, fun d mn mx => hn mn mx, ?_⟩
  intro d hz hinv
  unfold dmInv at hinv
  have hle : ¬ (d.max_hz < d.min_hz) := by omega
  refine ⟨min (max hz d.min_hz) d.max_hz, ?_, by omega, by omega⟩
  simp only [DisplayManager.clamp_hz, rustClampU32, if_neg hle]

/-- C10 witness: a reversed out-of-range pair is normalized and clamping
stays inside the stored range. -/
theorem c10_witness :
    ∃ v, (DisplayManager.new 120 20).clamp_hz 100 = some v ∧
      (DisplayManager.new 120 20).min_hz ≤ v ∧ v ≤ (DisplayManager.new 120 20).max_hz :=
  c10_display_range_normalized.2.2 (DisplayManager.new 120 20) 100
    ⟨by decide, by decide, by decide⟩

end SmartRefresh
